import Mathlib

/-!
Shallow embedding of the Ria language compiler core (`src/main.rs`):
the lexer `tokenize` and the code generator `tokens_to_asm`,
together with theorems settling the specification claims.
-/

set_option maxRecDepth 4096

namespace Ria

/-- Token categories, mirroring Rust `enum TokenType { Return, Number, Semi }`. -/
inductive TokenType where
  | Return
  | Number
  | Semi
deriving DecidableEq, Repr

/-- Mirrors Rust `struct Token { token_type: TokenType, value: Option<String> }`. -/
structure Token where
  token_type : TokenType
  value : Option String
deriving DecidableEq, Repr

/-- ASCII-letter test, mirroring the Rust match arm `'a'..='z' | 'A'..='Z'`. -/
def isAsciiLetter (c : Char) : Bool :=
  ('a' ≤ c && c ≤ 'z') || ('A' ≤ c && c ≤ 'Z')

/-- Inclusive code-point ranges above U+007F carrying the Unicode
`Alphabetic` property (Unicode Character Database 15.0): the table the Rust
standard library consults in `char::is_alphabetic` for non-ASCII
characters.  Surrogate code points (excluded from Rust `char`) split the
ranges around U+D800..U+DFFF. -/
def alphabeticRanges : List (Nat × Nat) := [
  (170, 170), (181, 181), (186, 186), (192, 214), (216, 246), (248, 705),
  (710, 721), (736, 740), (748, 748), (750, 750), (837, 837), (880, 884),
  (886, 887), (890, 893), (895, 895), (902, 902), (904, 906), (908, 908),
  (910, 929), (931, 1013), (1015, 1153), (1162, 1327), (1329, 1366), (1369, 1369),
  (1376, 1416), (1456, 1469), (1471, 1471), (1473, 1474), (1476, 1477), (1479, 1479),
  (1488, 1514), (1519, 1522), (1552, 1562), (1568, 1623), (1625, 1631), (1646, 1747),
  (1749, 1756), (1761, 1768), (1773, 1775), (1786, 1788), (1791, 1791), (1808, 1855),
  (1869, 1969), (1994, 2026), (2036, 2037), (2042, 2042), (2048, 2071), (2074, 2092),
  (2112, 2136), (2144, 2154), (2160, 2183), (2185, 2190), (2208, 2249), (2260, 2271),
  (2275, 2281), (2288, 2363), (2365, 2380), (2382, 2384), (2389, 2403), (2417, 2435),
  (2437, 2444), (2447, 2448), (2451, 2472), (2474, 2480), (2482, 2482), (2486, 2489),
  (2493, 2500), (2503, 2504), (2507, 2508), (2510, 2510), (2519, 2519), (2524, 2525),
  (2527, 2531), (2544, 2545), (2556, 2556), (2561, 2563), (2565, 2570), (2575, 2576),
  (2579, 2600), (2602, 2608), (2610, 2611), (2613, 2614), (2616, 2617), (2622, 2626),
  (2631, 2632), (2635, 2636), (2641, 2641), (2649, 2652), (2654, 2654), (2672, 2677),
  (2689, 2691), (2693, 2701), (2703, 2705), (2707, 2728), (2730, 2736), (2738, 2739),
  (2741, 2745), (2749, 2757), (2759, 2761), (2763, 2764), (2768, 2768), (2784, 2787),
  (2809, 2812), (2817, 2819), (2821, 2828), (2831, 2832), (2835, 2856), (2858, 2864),
  (2866, 2867), (2869, 2873), (2877, 2884), (2887, 2888), (2891, 2892), (2902, 2903),
  (2908, 2909), (2911, 2915), (2929, 2929), (2946, 2947), (2949, 2954), (2958, 2960),
  (2962, 2965), (2969, 2970), (2972, 2972), (2974, 2975), (2979, 2980), (2984, 2986),
  (2990, 3001), (3006, 3010), (3014, 3016), (3018, 3020), (3024, 3024), (3031, 3031),
  (3072, 3084), (3086, 3088), (3090, 3112), (3114, 3129), (3133, 3140), (3142, 3144),
  (3146, 3148), (3157, 3158), (3160, 3162), (3165, 3165), (3168, 3171), (3200, 3203),
  (3205, 3212), (3214, 3216), (3218, 3240), (3242, 3251), (3253, 3257), (3261, 3268),
  (3270, 3272), (3274, 3276), (3285, 3286), (3293, 3294), (3296, 3299), (3313, 3315),
  (3328, 3340), (3342, 3344), (3346, 3386), (3389, 3396), (3398, 3400), (3402, 3404),
  (3406, 3406), (3412, 3415), (3423, 3427), (3450, 3455), (3457, 3459), (3461, 3478),
  (3482, 3505), (3507, 3515), (3517, 3517), (3520, 3526), (3535, 3540), (3542, 3542),
  (3544, 3551), (3570, 3571), (3585, 3642), (3648, 3654), (3661, 3661), (3713, 3714),
  (3716, 3716), (3718, 3722), (3724, 3747), (3749, 3749), (3751, 3769), (3771, 3773),
  (3776, 3780), (3782, 3782), (3789, 3789), (3804, 3807), (3840, 3840), (3904, 3911),
  (3913, 3948), (3953, 3971), (3976, 3991), (3993, 4028), (4096, 4150), (4152, 4152),
  (4155, 4159), (4176, 4239), (4250, 4253), (4256, 4293), (4295, 4295), (4301, 4301),
  (4304, 4346), (4348, 4680), (4682, 4685), (4688, 4694), (4696, 4696), (4698, 4701),
  (4704, 4744), (4746, 4749), (4752, 4784), (4786, 4789), (4792, 4798), (4800, 4800),
  (4802, 4805), (4808, 4822), (4824, 4880), (4882, 4885), (4888, 4954), (4992, 5007),
  (5024, 5109), (5112, 5117), (5121, 5740), (5743, 5759), (5761, 5786), (5792, 5866),
  (5870, 5880), (5888, 5907), (5919, 5939), (5952, 5971), (5984, 5996), (5998, 6000),
  (6002, 6003), (6016, 6067), (6070, 6088), (6103, 6103), (6108, 6108), (6176, 6264),
  (6272, 6314), (6320, 6389), (6400, 6430), (6432, 6443), (6448, 6456), (6480, 6509),
  (6512, 6516), (6528, 6571), (6576, 6601), (6656, 6683), (6688, 6750), (6753, 6772),
  (6823, 6823), (6847, 6848), (6860, 6862), (6912, 6963), (6965, 6979), (6981, 6988),
  (7040, 7081), (7084, 7087), (7098, 7141), (7143, 7153), (7168, 7222), (7245, 7247),
  (7258, 7293), (7296, 7304), (7312, 7354), (7357, 7359), (7401, 7404), (7406, 7411),
  (7413, 7414), (7418, 7418), (7424, 7615), (7655, 7668), (7680, 7957), (7960, 7965),
  (7968, 8005), (8008, 8013), (8016, 8023), (8025, 8025), (8027, 8027), (8029, 8029),
  (8031, 8061), (8064, 8116), (8118, 8124), (8126, 8126), (8130, 8132), (8134, 8140),
  (8144, 8147), (8150, 8155), (8160, 8172), (8178, 8180), (8182, 8188), (8305, 8305),
  (8319, 8319), (8336, 8348), (8450, 8450), (8455, 8455), (8458, 8467), (8469, 8469),
  (8473, 8477), (8484, 8484), (8486, 8486), (8488, 8488), (8490, 8493), (8495, 8505),
  (8508, 8511), (8517, 8521), (8526, 8526), (8544, 8584), (9398, 9449), (11264, 11492),
  (11499, 11502), (11506, 11507), (11520, 11557), (11559, 11559), (11565, 11565), (11568, 11623),
  (11631, 11631), (11648, 11670), (11680, 11686), (11688, 11694), (11696, 11702), (11704, 11710),
  (11712, 11718), (11720, 11726), (11728, 11734), (11736, 11742), (11744, 11775), (11823, 11823),
  (12293, 12295), (12321, 12329), (12337, 12341), (12344, 12348), (12353, 12438), (12445, 12447),
  (12449, 12538), (12540, 12543), (12549, 12591), (12593, 12686), (12704, 12735), (12784, 12799),
  (13312, 19903), (19968, 42124), (42192, 42237), (42240, 42508), (42512, 42527), (42538, 42539),
  (42560, 42606), (42612, 42619), (42623, 42735), (42775, 42783), (42786, 42888), (42891, 42954),
  (42960, 42961), (42963, 42963), (42965, 42969), (42994, 43013), (43015, 43047), (43072, 43123),
  (43136, 43203), (43205, 43205), (43250, 43255), (43259, 43259), (43261, 43263), (43274, 43306),
  (43312, 43346), (43360, 43388), (43392, 43442), (43444, 43455), (43471, 43471), (43488, 43503),
  (43514, 43518), (43520, 43574), (43584, 43597), (43616, 43638), (43642, 43710), (43712, 43712),
  (43714, 43714), (43739, 43741), (43744, 43759), (43762, 43765), (43777, 43782), (43785, 43790),
  (43793, 43798), (43808, 43814), (43816, 43822), (43824, 43866), (43868, 43881), (43888, 44010),
  (44032, 55203), (55216, 55238), (55243, 55291), (63744, 64109), (64112, 64217), (64256, 64262),
  (64275, 64279), (64285, 64296), (64298, 64310), (64312, 64316), (64318, 64318), (64320, 64321),
  (64323, 64324), (64326, 64433), (64467, 64829), (64848, 64911), (64914, 64967), (65008, 65019),
  (65136, 65140), (65142, 65276), (65313, 65338), (65345, 65370), (65382, 65470), (65474, 65479),
  (65482, 65487), (65490, 65495), (65498, 65500), (65536, 65547), (65549, 65574), (65576, 65594),
  (65596, 65597), (65599, 65613), (65616, 65629), (65664, 65786), (65856, 65908), (66176, 66204),
  (66208, 66256), (66304, 66335), (66349, 66378), (66384, 66426), (66432, 66461), (66464, 66499),
  (66504, 66511), (66513, 66517), (66560, 66717), (66736, 66771), (66776, 66811), (66816, 66855),
  (66864, 66915), (66928, 66938), (66940, 66954), (66956, 66962), (66964, 66965), (66967, 66977),
  (66979, 66993), (66995, 67001), (67003, 67004), (67072, 67382), (67392, 67413), (67424, 67431),
  (67456, 67461), (67463, 67504), (67506, 67514), (67584, 67589), (67592, 67592), (67594, 67637),
  (67639, 67640), (67644, 67644), (67647, 67669), (67680, 67702), (67712, 67742), (67808, 67826),
  (67828, 67829), (67840, 67861), (67872, 67897), (67968, 68023), (68030, 68031), (68096, 68099),
  (68101, 68102), (68108, 68115), (68117, 68119), (68121, 68149), (68192, 68220), (68224, 68252),
  (68288, 68295), (68297, 68324), (68352, 68405), (68416, 68437), (68448, 68466), (68480, 68497),
  (68608, 68680), (68736, 68786), (68800, 68850), (68864, 68903), (69248, 69289), (69291, 69292),
  (69296, 69297), (69376, 69404), (69415, 69415), (69424, 69445), (69488, 69505), (69552, 69572),
  (69600, 69622), (69632, 69701), (69745, 69749), (69760, 69816), (69826, 69826), (69840, 69864),
  (69888, 69938), (69956, 69959), (69968, 70002), (70006, 70006), (70016, 70079), (70081, 70084),
  (70094, 70095), (70106, 70106), (70108, 70108), (70144, 70161), (70163, 70196), (70199, 70199),
  (70206, 70209), (70272, 70278), (70280, 70280), (70282, 70285), (70287, 70301), (70303, 70312),
  (70320, 70376), (70400, 70403), (70405, 70412), (70415, 70416), (70419, 70440), (70442, 70448),
  (70450, 70451), (70453, 70457), (70461, 70468), (70471, 70472), (70475, 70476), (70480, 70480),
  (70487, 70487), (70493, 70499), (70656, 70721), (70723, 70725), (70727, 70730), (70751, 70753),
  (70784, 70849), (70852, 70853), (70855, 70855), (71040, 71093), (71096, 71102), (71128, 71133),
  (71168, 71230), (71232, 71232), (71236, 71236), (71296, 71349), (71352, 71352), (71424, 71450),
  (71453, 71466), (71488, 71494), (71680, 71736), (71840, 71903), (71935, 71942), (71945, 71945),
  (71948, 71955), (71957, 71958), (71960, 71989), (71991, 71992), (71995, 71996), (71999, 72002),
  (72096, 72103), (72106, 72151), (72154, 72159), (72161, 72161), (72163, 72164), (72192, 72242),
  (72245, 72254), (72272, 72343), (72349, 72349), (72368, 72440), (72704, 72712), (72714, 72758),
  (72760, 72766), (72768, 72768), (72818, 72847), (72850, 72871), (72873, 72886), (72960, 72966),
  (72968, 72969), (72971, 73014), (73018, 73018), (73020, 73021), (73023, 73025), (73027, 73027),
  (73030, 73031), (73056, 73061), (73063, 73064), (73066, 73102), (73104, 73105), (73107, 73110),
  (73112, 73112), (73440, 73462), (73472, 73488), (73490, 73530), (73534, 73536), (73648, 73648),
  (73728, 74649), (74752, 74862), (74880, 75075), (77712, 77808), (77824, 78895), (78913, 78918),
  (82944, 83526), (92160, 92728), (92736, 92766), (92784, 92862), (92880, 92909), (92928, 92975),
  (92992, 92995), (93027, 93047), (93053, 93071), (93760, 93823), (93952, 94026), (94031, 94087),
  (94095, 94111), (94176, 94177), (94179, 94179), (94192, 94193), (94208, 100343), (100352, 101589),
  (101632, 101640), (110576, 110579), (110581, 110587), (110589, 110590), (110592, 110882), (110898, 110898),
  (110928, 110930), (110933, 110933), (110948, 110951), (110960, 111355), (113664, 113770), (113776, 113788),
  (113792, 113800), (113808, 113817), (113822, 113822), (119808, 119892), (119894, 119964), (119966, 119967),
  (119970, 119970), (119973, 119974), (119977, 119980), (119982, 119993), (119995, 119995), (119997, 120003),
  (120005, 120069), (120071, 120074), (120077, 120084), (120086, 120092), (120094, 120121), (120123, 120126),
  (120128, 120132), (120134, 120134), (120138, 120144), (120146, 120485), (120488, 120512), (120514, 120538),
  (120540, 120570), (120572, 120596), (120598, 120628), (120630, 120654), (120656, 120686), (120688, 120712),
  (120714, 120744), (120746, 120770), (120772, 120779), (122624, 122654), (122661, 122666), (122880, 122886),
  (122888, 122904), (122907, 122913), (122915, 122916), (122918, 122922), (122928, 122989), (123023, 123023),
  (123136, 123180), (123191, 123197), (123214, 123214), (123536, 123565), (123584, 123627), (124112, 124139),
  (124896, 124902), (124904, 124907), (124909, 124910), (124912, 124926), (124928, 125124), (125184, 125251),
  (125255, 125255), (125259, 125259), (126464, 126467), (126469, 126495), (126497, 126498), (126500, 126500),
  (126503, 126503), (126505, 126514), (126516, 126519), (126521, 126521), (126523, 126523), (126530, 126530),
  (126535, 126535), (126537, 126537), (126539, 126539), (126541, 126543), (126545, 126546), (126548, 126548),
  (126551, 126551), (126553, 126553), (126555, 126555), (126557, 126557), (126559, 126559), (126561, 126562),
  (126564, 126564), (126567, 126570), (126572, 126578), (126580, 126583), (126585, 126588), (126590, 126590),
  (126592, 126601), (126603, 126619), (126625, 126627), (126629, 126633), (126635, 126651), (127280, 127305),
  (127312, 127337), (127344, 127369), (131072, 173791), (173824, 177977), (177984, 178205), (178208, 183969),
  (183984, 191456), (194560, 195101), (196608, 201546), (201552, 205743)]

/-- Rust `char::is_alphabetic`: an ASCII letter, or a character above
U+007F with the Unicode `Alphabetic` property, mirroring the ASCII fast
path plus table lookup of the Rust standard library. -/
def is_alphabetic (c : Char) : Bool :=
  (('a' ≤ c && c ≤ 'z') || ('A' ≤ c && c ≤ 'Z')) ||
  (0x7f < c.toNat && alphabeticRanges.any (fun r => r.1 ≤ c.toNat && c.toNat ≤ r.2))

theorem is_alphabetic_of_isAsciiLetter {c : Char} (h : isAsciiLetter c = true) :
    is_alphabetic c = true := by
  simp only [isAsciiLetter, Bool.or_eq_true] at h
  simp only [is_alphabetic, Bool.or_eq_true]
  exact Or.inl h

theorem length_dropWhile_le (p : Char → Bool) (l : List Char) :
    (l.dropWhile p).length ≤ l.length := by
  induction l with
  | nil => simp [List.dropWhile]
  | cons a l ih =>
    by_cases h : p a
    · simp only [List.dropWhile_cons, h, if_true, List.length_cons]
      omega
    · simp [List.dropWhile_cons, h]

theorem length_dropWhile_cons_lt {p : Char → Bool} {c : Char} {l : List Char}
    (h : p c = true) :
    (List.dropWhile p (c :: l)).length < (c :: l).length := by
  rw [List.dropWhile_cons_of_pos h]
  exact Nat.lt_succ_of_le (length_dropWhile_le p l)

/-- The lexer loop of Rust `tokenize`, over the character list of the input.
Each arm mirrors one arm of the Rust `match c`:
an ASCII letter starts a maximal run of `is_alphabetic` characters, which
becomes a `Return` token exactly when the run spells `kharrej` and is
otherwise discarded; an ASCII digit starts a maximal digit run emitted as a
`Number` token carrying the digits; `;` emits `Semi`; whitespace and every
other character are consumed without emitting a token. -/
def tokenize_chars : List Char → List Token
  | [] => []
  | c :: rest =>
    if isAsciiLetter c then
      let identifier := String.mk ((c :: rest).takeWhile is_alphabetic)
      let rest2 := (c :: rest).dropWhile is_alphabetic
      if identifier = "kharrej" then
        ⟨TokenType.Return, none⟩ :: tokenize_chars rest2
      else
        tokenize_chars rest2
    else if c.isDigit then
      let number := String.mk ((c :: rest).takeWhile Char.isDigit)
      ⟨TokenType.Number, some number⟩ ::
        tokenize_chars ((c :: rest).dropWhile Char.isDigit)
    else if c = ';' then
      ⟨TokenType.Semi, none⟩ :: tokenize_chars rest
    else if c = ' ' || c = '\t' || c = '\n' || c = '\r' then
      tokenize_chars rest
    else
      tokenize_chars rest
termination_by l => l.length
decreasing_by
  all_goals first
    | exact length_dropWhile_cons_lt (is_alphabetic_of_isAsciiLetter (by assumption))
    | exact length_dropWhile_cons_lt (by assumption)
    | exact Nat.lt_succ_self _

/-- Rust `tokenize(input: &str) -> Vec<Token>`. -/
def tokenize (input : String) : List Token :=
  tokenize_chars input.data

/-- Digit-run part of Rust `i32::from_str`: at least one ASCII digit, all
characters digits, accumulated in base 10; Rust's per-step checked
arithmetic errors exactly when the full value falls outside the `i32`
range, embedded here as the equivalent post-hoc range check. -/
def parseDigits (neg : Bool) (ds : List Char) : Option Int :=
  if ds = [] then none
  else if ds.all Char.isDigit then
    let n : Nat := ds.foldl (fun acc ch => acc * 10 + (ch.toNat - '0'.toNat)) 0
    let v : Int := if neg then -(n : Int) else (n : Int)
    if -2147483648 ≤ v ∧ v ≤ 2147483647 then some v else none
  else none

/-- Rust `str::parse::<i32>()` as used on the literal text of a `Number`
token: an optional `+`/`-` sign followed by at least one ASCII digit, with
the result required to fit in a signed 32-bit integer; anything else (empty
string, stray characters, overflow) is a parse failure, embedded as `none`. -/
def parse_i32 (s : String) : Option Int :=
  match s.data with
  | [] => none
  | c :: rest =>
    if c = '+' then parseDigits false rest
    else if c = '-' then parseDigits true rest
    else parseDigits false (c :: rest)

/-- The fixed header that Rust `tokens_to_asm` pushes before scanning:
`global _start`, `section .text`, `_start:`. -/
def asmHeader : String :=
  "global _start\n" ++ "section .text\n" ++ "_start:\n"

/-- The three-instruction exit block Rust `tokens_to_asm` appends for one
recognized statement with validated exit code `exit_code`. -/
def exitBlock (exit_code : Int) : String :=
  "    mov rax, 60     ; sys_exit\n" ++
  ("    mov rdi, " ++ toString exit_code ++ "    ; exit code\n") ++
  "    syscall\n"

/-- The scanning loop of Rust `tokens_to_asm`, phrased on the suffix of the
token sequence starting at the scan index `i` (the source condition
`i + 2 >= tokens.len()` is exactly: fewer than two tokens follow the head).
`found` is `found_return`, `acc` is the `asm_code` string built so far.
On a `Return` head: fewer than two followers is the incomplete-statement
error; `(Number, Semi)` followers with a present value parse and
range-check the value, emitting a block and skipping past the number and
semicolon on success; a `Number` token with an absent value falls through
the Rust `if let`, emitting nothing and advancing by one; `(Number, _)` is
the missing-semicolon error and anything else the missing-number error.
A non-`Return` head just advances.  After the loop, `found = false` is the
no-statement-found error. -/
def genLoop : List Token → Bool → String → Except String String
  | [], found, acc =>
    if found then Except.ok acc
    else Except.error "No \x27kharrej\x27 statement found"
  | t :: rest, found, acc =>
    match t.token_type with
    | TokenType.Return =>
      match rest with
      | t1 :: t2 :: rest2 =>
        match t1.token_type, t2.token_type with
        | TokenType.Number, TokenType.Semi =>
          match t1.value with
          | some value =>
            match parse_i32 value with
            | some exit_code =>
              if 0 ≤ exit_code ∧ exit_code ≤ 255 then
                genLoop rest2 true (acc ++ exitBlock exit_code)
              else
                Except.error
                  ("Exit code must be between 0 and 255, got " ++ toString exit_code)
            | none => Except.error ("Invalid number: \x27" ++ value ++ "\x27")
          | none => genLoop (t1 :: t2 :: rest2) true acc
        | TokenType.Number, _ => Except.error "Expected semicolon after number"
        | _, _ => Except.error "Expected number after \x27kharrej\x27"
      | _ => Except.error "Incomplete return statement: expected \x27kharrej <number>;\x27"
    | _ => genLoop rest found acc

/-- Rust `tokens_to_asm(tokens: Vec<Token>) -> Result<String, String>`:
pushes the fixed header, runs the scanning loop from index 0 with
`found_return = false`. -/
def tokens_to_asm (tokens : List Token) : Except String String :=
  genLoop tokens false asmHeader

/-- The value denoted by a decimal digit string (most-significant first),
as named by the spec's phrase "the integer denoted by t". -/
def decimalVal (t : String) : Nat :=
  t.data.foldl (fun acc ch => acc * 10 + (ch.toNat - '0'.toNat)) 0

/-- The token sequence of one well-formed statement, `kharrej <t> ;`. -/
def stmt (t : String) : List Token :=
  [⟨TokenType.Return, none⟩, ⟨TokenType.Number, some t⟩, ⟨TokenType.Semi, none⟩]

/-- Concatenation of exit blocks, one per validated statement value. -/
def blocks : List Int → String
  | [] => ""
  | v :: vs => exitBlock v ++ blocks vs

/-! ### Helper lemmas -/

theorem parse_i32_digits (t : String) (h1 : t.data ≠ []) (h2 : t.data.all Char.isDigit = true) :
    parse_i32 t =
      if (decimalVal t : Int) ≤ 2147483647 then some ((decimalVal t : Nat) : Int)
      else none := by
  rcases hd : t.data with _ | ⟨c, rest⟩
  · exact absurd hd h1
  have hc : c.isDigit = true := by
    have h2' := h2
    rw [hd] at h2'
    simp only [List.all_cons, Bool.and_eq_true] at h2'
    exact h2'.1
  have hplus : ¬ c = '+' := by
    intro he
    rw [he] at hc
    exact absurd hc (by decide)
  have hminus : ¬ c = '-' := by
    intro he
    rw [he] at hc
    exact absurd hc (by decide)
  have hstep : parse_i32 t = parseDigits false (c :: rest) := by
    unfold parse_i32
    rw [hd]
    simp [hplus, hminus]
  rw [hstep]
  unfold parseDigits
  have hall : (c :: rest).all Char.isDigit = true := by rw [← hd]; exact h2
  have hdv : (c :: rest).foldl (fun acc ch => acc * 10 + (ch.toNat - '0'.toNat)) 0
      = decimalVal t := by rw [decimalVal, hd]
  rw [if_neg (by simp), if_pos hall]
  simp only [Bool.false_eq_true, if_false, hdv]
  have hlo : (-2147483648 : Int) ≤ (decimalVal t : Int) :=
    le_trans (by norm_num) (Int.natCast_nonneg _)
  by_cases hhi : (decimalVal t : Int) ≤ 2147483647
  · rw [if_pos ⟨hlo, hhi⟩, if_pos hhi]
  · rw [if_neg (by tauto), if_neg hhi]

theorem genLoop_stmt (t : String) (rest : List Token) (found : Bool) (acc : String)
    (h1 : t.data ≠ []) (h2 : t.data.all Char.isDigit = true) (h3 : decimalVal t ≤ 255) :
    genLoop (stmt t ++ rest) found acc =
      genLoop rest true (acc ++ exitBlock ((decimalVal t : Int))) := by
  have hle : (decimalVal t : Int) ≤ 2147483647 := by
    have : (decimalVal t : Int) ≤ 255 := by exact_mod_cast h3
    omega
  have hp := parse_i32_digits t h1 h2
  rw [if_pos hle] at hp
  simp only [stmt, List.cons_append, List.nil_append, genLoop, hp]
  rw [if_pos ⟨Int.natCast_nonneg _, by exact_mod_cast h3⟩]
  rfl

theorem genLoop_ok_shape (tokens : List Token) (found : Bool) (acc : String) :
    ∀ s : String, genLoop tokens found acc = Except.ok s →
      ∃ ws : List Int, s = acc ++ blocks ws := by
  induction tokens, found, acc using genLoop.induct with
  | case1 acc =>
    intro s hs
    simp only [genLoop, if_true, Except.ok.injEq] at hs
    exact ⟨[], by rw [← hs, blocks, String.append_empty]⟩
  | case2 found acc hf =>
    intro s hs
    simp only [genLoop, if_neg hf] at hs
    exact Except.noConfusion hs
  | case3 t found acc heq t1 t2 rest2 hsemi hnum value hval exit_code hparse hrange ih =>
    intro s hs
    obtain ⟨tt, tv⟩ := t
    obtain ⟨tt1, tv1⟩ := t1
    obtain ⟨tt2, tv2⟩ := t2
    simp only [Token.token_type] at heq hsemi hnum
    simp only [Token.value] at hval
    subst heq hsemi hnum hval
    simp only [genLoop, hparse, if_pos hrange] at hs
    obtain ⟨ws, hws⟩ := ih s hs
    exact ⟨exit_code :: ws, by rw [hws, blocks, String.append_assoc]⟩
  | case4 t found acc heq t1 t2 rest2 hsemi hnum value hval exit_code hparse hrange =>
    intro s hs
    obtain ⟨tt, tv⟩ := t
    obtain ⟨tt1, tv1⟩ := t1
    obtain ⟨tt2, tv2⟩ := t2
    simp only [Token.token_type] at heq hsemi hnum
    simp only [Token.value] at hval
    subst heq hsemi hnum hval
    simp only [genLoop, hparse, if_neg hrange] at hs
    exact Except.noConfusion hs
  | case5 t found acc heq t1 t2 rest2 hsemi hnum value hval hparse =>
    intro s hs
    obtain ⟨tt, tv⟩ := t
    obtain ⟨tt1, tv1⟩ := t1
    obtain ⟨tt2, tv2⟩ := t2
    simp only [Token.token_type] at heq hsemi hnum
    simp only [Token.value] at hval
    subst heq hsemi hnum hval
    simp only [genLoop, hparse] at hs
    exact Except.noConfusion hs
  | case6 t found acc heq t1 t2 rest2 hsemi hnum hval ih =>
    intro s hs
    obtain ⟨tt, tv⟩ := t
    obtain ⟨tt1, tv1⟩ := t1
    obtain ⟨tt2, tv2⟩ := t2
    simp only [Token.token_type] at heq hsemi hnum
    simp only [Token.value] at hval
    subst heq hsemi hnum hval
    simp only [genLoop] at hs
    exact ih s hs
  | case7 t found acc heq t1 t2 rest2 hnum hsemi =>
    intro s hs
    obtain ⟨tt, tv⟩ := t
    obtain ⟨tt1, tv1⟩ := t1
    obtain ⟨tt2, tv2⟩ := t2
    simp only [Token.token_type] at heq hsemi hnum
    subst heq hnum
    cases tt2
    case Semi => exact absurd rfl hsemi
    all_goals
      simp only [genLoop] at hs
      exact Except.noConfusion hs
  | case8 t found acc heq t1 t2 rest2 hnum hboth =>
    intro s hs
    obtain ⟨tt, tv⟩ := t
    obtain ⟨tt1, tv1⟩ := t1
    obtain ⟨tt2, tv2⟩ := t2
    simp only [Token.token_type] at heq hnum hboth
    subst heq
    cases tt1
    case Number => exact absurd rfl hnum
    all_goals
      cases tt2 <;> simp only [genLoop] at hs <;> exact Except.noConfusion hs
  | case9 t rest found acc heq hshort =>
    intro s hs
    obtain ⟨tt, tv⟩ := t
    simp only [Token.token_type] at heq
    subst heq
    rcases rest with _ | ⟨t1, _ | ⟨t2, rest2⟩⟩
    · simp only [genLoop] at hs
      exact Except.noConfusion hs
    · simp only [genLoop] at hs
      exact Except.noConfusion hs
    · exact absurd rfl (hshort t1 t2 rest2)
  | case10 t rest found acc heq ih =>
    intro s hs
    obtain ⟨tt, tv⟩ := t
    simp only [Token.token_type] at heq
    cases tt
    case Return => exact absurd rfl heq
    all_goals
      simp only [genLoop] at hs
      exact ih s hs

theorem genLoop_noStmt_iff (tokens : List Token) (found : Bool) (acc : String) :
    genLoop tokens found acc = Except.error "No \x27kharrej\x27 statement found" ↔
      (found = false ∧ ∀ tk ∈ tokens, tk.token_type ≠ TokenType.Return) := by
  induction tokens, found, acc using genLoop.induct with
  | case1 acc =>
    simp [genLoop]
  | case2 found acc hf =>
    have hf' : found = false := by
      cases found
      · rfl
      · exact absurd rfl hf
    subst hf'
    simp [genLoop]
  | case3 t found acc heq t1 t2 rest2 hsemi hnum value hval exit_code hparse hrange ih =>
    obtain ⟨tt, tv⟩ := t
    obtain ⟨tt1, tv1⟩ := t1
    obtain ⟨tt2, tv2⟩ := t2
    simp only [Token.token_type] at heq hsemi hnum
    simp only [Token.value] at hval
    subst heq hsemi hnum hval
    simp only [genLoop, hparse, if_pos hrange]
    refine iff_of_false ?_ ?_
    · intro h
      exact Bool.noConfusion (ih.mp h).1
    · rintro ⟨-, hall⟩
      exact absurd rfl (hall ⟨TokenType.Return, tv⟩ (List.mem_cons_self _ _))
  | case4 t found acc heq t1 t2 rest2 hsemi hnum value hval exit_code hparse hrange =>
    obtain ⟨tt, tv⟩ := t
    obtain ⟨tt1, tv1⟩ := t1
    obtain ⟨tt2, tv2⟩ := t2
    simp only [Token.token_type] at heq hsemi hnum
    simp only [Token.value] at hval
    subst heq hsemi hnum hval
    simp only [genLoop, hparse, if_neg hrange]
    refine iff_of_false ?_ ?_
    · intro h
      injection h with h'
      have hE : ("Exit code must be between 0 and 255, got " ++
          toString exit_code).data.head? = some 'E' := rfl
      rw [h'] at hE
      exact absurd hE (by decide)
    · rintro ⟨-, hall⟩
      exact absurd rfl (hall ⟨TokenType.Return, tv⟩ (List.mem_cons_self _ _))
  | case5 t found acc heq t1 t2 rest2 hsemi hnum value hval hparse =>
    obtain ⟨tt, tv⟩ := t
    obtain ⟨tt1, tv1⟩ := t1
    obtain ⟨tt2, tv2⟩ := t2
    simp only [Token.token_type] at heq hsemi hnum
    simp only [Token.value] at hval
    subst heq hsemi hnum hval
    simp only [genLoop, hparse]
    refine iff_of_false ?_ ?_
    · intro h
      injection h with h'
      have hI : ("Invalid number: \x27" ++ value ++ "\x27").data.head? = some 'I' := rfl
      rw [h'] at hI
      exact absurd hI (by decide)
    · rintro ⟨-, hall⟩
      exact absurd rfl (hall ⟨TokenType.Return, tv⟩ (List.mem_cons_self _ _))
  | case6 t found acc heq t1 t2 rest2 hsemi hnum hval ih =>
    obtain ⟨tt, tv⟩ := t
    obtain ⟨tt1, tv1⟩ := t1
    obtain ⟨tt2, tv2⟩ := t2
    simp only [Token.token_type] at heq hsemi hnum
    simp only [Token.value] at hval
    subst heq hsemi hnum hval
    simp only [genLoop]
    refine iff_of_false ?_ ?_
    · intro h
      exact Bool.noConfusion (ih.mp h).1
    · rintro ⟨-, hall⟩
      exact absurd rfl (hall ⟨TokenType.Return, tv⟩ (List.mem_cons_self _ _))
  | case7 t found acc heq t1 t2 rest2 hnum hsemi =>
    obtain ⟨tt, tv⟩ := t
    obtain ⟨tt1, tv1⟩ := t1
    obtain ⟨tt2, tv2⟩ := t2
    simp only [Token.token_type] at heq hsemi hnum
    subst heq hnum
    refine iff_of_false ?_ ?_
    · cases tt2
      case Semi => exact absurd rfl hsemi
      all_goals
        simp only [genLoop]
        intro h
        injection h with h'
        revert h'
        decide
    · rintro ⟨-, hall⟩
      exact absurd rfl (hall ⟨TokenType.Return, tv⟩ (List.mem_cons_self _ _))
  | case8 t found acc heq t1 t2 rest2 hnum hboth =>
    obtain ⟨tt, tv⟩ := t
    obtain ⟨tt1, tv1⟩ := t1
    obtain ⟨tt2, tv2⟩ := t2
    simp only [Token.token_type] at heq hnum
    subst heq
    refine iff_of_false ?_ ?_
    · cases tt1
      case Number => exact absurd rfl hnum
      all_goals
        cases tt2 <;>
          (simp only [genLoop]
           intro h
           injection h with h'
           revert h'
           decide)
    · rintro ⟨-, hall⟩
      exact absurd rfl (hall ⟨TokenType.Return, tv⟩ (List.mem_cons_self _ _))
  | case9 t rest found acc heq hshort =>
    obtain ⟨tt, tv⟩ := t
    simp only [Token.token_type] at heq
    subst heq
    refine iff_of_false ?_ ?_
    · rcases rest with _ | ⟨t1, _ | ⟨t2, rest2⟩⟩
      · simp only [genLoop]
        intro h
        injection h with h'
        revert h'
        decide
      · simp only [genLoop]
        intro h
        injection h with h'
        revert h'
        decide
      · exact absurd rfl (hshort t1 t2 rest2)
    · rintro ⟨-, hall⟩
      exact absurd rfl (hall ⟨TokenType.Return, tv⟩ (List.mem_cons_self _ _))
  | case10 t rest found acc heq ih =>
    obtain ⟨tt, tv⟩ := t
    simp only [Token.token_type] at heq
    cases tt
    case Return => exact absurd rfl heq
    all_goals
      simp only [genLoop]
      rw [ih]
      simp [List.forall_mem_cons]

theorem genLoop_stmts (vs : List String)
    (h : ∀ t ∈ vs, t.data ≠ [] ∧ t.data.all Char.isDigit = true ∧ decimalVal t ≤ 255) :
    ∀ acc : String, genLoop (vs.map stmt).flatten true acc =
      Except.ok (acc ++ blocks (vs.map fun t => ((decimalVal t : Int)))) := by
  induction vs with
  | nil =>
    intro acc
    simp only [List.map_nil, List.flatten_nil, genLoop, if_true, blocks]
    rw [String.append_empty]
  | cons v vs ih =>
    intro acc
    obtain ⟨h1, h2, h3⟩ := h v (List.mem_cons_self _ _)
    have hrest := fun t ht => h t (List.mem_cons_of_mem _ ht)
    rw [List.map_cons, List.flatten_cons, genLoop_stmt v _ true acc h1 h2 h3,
      ih hrest, List.map_cons, blocks, String.append_assoc]

theorem tokenize_chars_length (l : List Char) :
    (tokenize_chars l).length ≤ l.length := by
  have key : ∀ (n : Nat) (l : List Char), l.length ≤ n →
      (tokenize_chars l).length ≤ l.length := by
    intro n
    induction n with
    | zero =>
      intro l hl
      obtain rfl : l = [] := List.eq_nil_of_length_eq_zero (Nat.le_zero.mp hl)
      simp [tokenize_chars]
    | succ n ih =>
      intro l hl
      rcases l with _ | ⟨c, rest⟩
      · simp [tokenize_chars]
      simp only [List.length_cons] at hl
      have hrest : rest.length ≤ n := Nat.le_of_succ_le_succ hl
      simp only [tokenize_chars]
      by_cases hc : isAsciiLetter c = true
      · rw [if_pos hc]
        have hd : (List.dropWhile is_alphabetic (c :: rest)).length ≤ rest.length := by
          rw [List.dropWhile_cons_of_pos (is_alphabetic_of_isAsciiLetter hc)]
          exact length_dropWhile_le _ _
        have hr := ih (List.dropWhile is_alphabetic (c :: rest)) (le_trans hd hrest)
        by_cases hkw : String.mk (List.takeWhile is_alphabetic (c :: rest)) = "kharrej"
        · rw [if_pos hkw]
          simp only [List.length_cons]
          omega
        · rw [if_neg hkw]
          simp only [List.length_cons]
          omega
      · rw [if_neg hc]
        by_cases hdig : c.isDigit = true
        · rw [if_pos hdig]
          have hd : (List.dropWhile Char.isDigit (c :: rest)).length ≤ rest.length := by
            rw [List.dropWhile_cons_of_pos hdig]
            exact length_dropWhile_le _ _
          have hr := ih (List.dropWhile Char.isDigit (c :: rest)) (le_trans hd hrest)
          simp only [List.length_cons]
          omega
        · rw [if_neg hdig]
          have hr := ih rest hrest
          by_cases hsemi : c = ';'
          · rw [if_pos hsemi]
            simp only [List.length_cons]
            omega
          · rw [if_neg hsemi]
            by_cases hws :
                (decide (c = ' ') || decide (c = '\t') || decide (c = '\n') ||
                  decide (c = '\r')) = true
            · rw [if_pos hws]
              simp only [List.length_cons]
              omega
            · rw [if_neg hws]
              simp only [List.length_cons]
              omega
  exact key l.length l le_rfl

/-! ### Claim theorems -/

/-- Claim C1: tokenizing the exact text `kharrej 7;` yields exactly
`[ReturnKeyword, NumberLiteral "7", Semicolon]`, and the code generator on
that sequence succeeds with assembly whose exit-argument `mov` line
textually contains `7`. -/
theorem roundtrip_kharrej_seven :
    tokenize "kharrej 7;" =
      [⟨TokenType.Return, none⟩, ⟨TokenType.Number, some "7"⟩, ⟨TokenType.Semi, none⟩] ∧
    tokens_to_asm
      [⟨TokenType.Return, none⟩, ⟨TokenType.Number, some "7"⟩, ⟨TokenType.Semi, none⟩] =
      Except.ok (asmHeader ++ exitBlock 7) ∧
    "mov rdi, 7".data <:+: (asmHeader ++ exitBlock 7).data := by
  refine ⟨?_, rfl, by decide⟩
  simp +decide [tokenize, tokenize_chars, isAsciiLetter]

/-- Claim C2, amended: for `[ReturnKeyword, NumberLiteral t, Semicolon]`
with `t` a non-empty digit string, generation succeeds iff the denoted
value is at most 255; values in `(255, 2147483647]` fail with the
out-of-range message carrying the value, while values above `2147483647`
fail the numeric parse with the invalid-number message instead;
`t = "255"` succeeds and the literal text `"-1"` fails out-of-range. -/
theorem exit_code_range (t : String) (h1 : t.data ≠ [])
    (h2 : t.data.all Char.isDigit = true) :
    ((tokens_to_asm (stmt t)).isOk = true ↔ decimalVal t ≤ 255) ∧
    (decimalVal t ≤ 255 →
      tokens_to_asm (stmt t) =
        Except.ok (asmHeader ++ exitBlock ((decimalVal t : Int)))) ∧
    (255 < decimalVal t → decimalVal t ≤ 2147483647 →
      tokens_to_asm (stmt t) =
        Except.error ("Exit code must be between 0 and 255, got " ++
          toString ((decimalVal t : Int)))) ∧
    (2147483647 < decimalVal t →
      tokens_to_asm (stmt t) = Except.error ("Invalid number: \x27" ++ t ++ "\x27")) ∧
    tokens_to_asm (stmt "255") = Except.ok (asmHeader ++ exitBlock 255) ∧
    tokens_to_asm (stmt "-1") =
      Except.error "Exit code must be between 0 and 255, got -1" := by
  have hp := parse_i32_digits t h1 h2
  by_cases hB : (decimalVal t : Int) ≤ 2147483647
  · rw [if_pos hB] at hp
    by_cases hA : decimalVal t ≤ 255
    · have he : tokens_to_asm (stmt t) =
          Except.ok (asmHeader ++ exitBlock ((decimalVal t : Int))) := by
        have h := genLoop_stmt t [] false asmHeader h1 h2 hA
        rw [List.append_nil] at h
        exact h
      exact ⟨iff_of_true (by rw [he]; rfl) hA,
        fun _ => he,
        fun hgt _ => absurd hgt (by omega),
        fun hgt => absurd hgt (by omega),
        rfl, rfl⟩
    · have hne : ¬(0 ≤ (decimalVal t : Int) ∧ (decimalVal t : Int) ≤ 255) := by
        rintro ⟨-, hcon⟩
        exact hA (by exact_mod_cast hcon)
      have he : tokens_to_asm (stmt t) =
          Except.error ("Exit code must be between 0 and 255, got " ++
            toString ((decimalVal t : Int))) := by
        show genLoop (stmt t) false asmHeader = _
        simp only [stmt, genLoop, hp]
        rw [if_neg hne]
      exact ⟨iff_of_false (by rw [he]; simp [Except.isOk, Except.toBool]) hA,
        fun hcon => absurd hcon hA,
        fun _ _ => he,
        fun hgt => absurd hB (by exact_mod_cast Nat.not_le.mpr hgt),
        rfl, rfl⟩
  · rw [if_neg hB] at hp
    have hgtN : 2147483647 < decimalVal t := by
      by_contra hcon
      exact hB (by exact_mod_cast Nat.le_of_not_lt hcon)
    have he : tokens_to_asm (stmt t) =
        Except.error ("Invalid number: \x27" ++ t ++ "\x27") := by
      show genLoop (stmt t) false asmHeader = _
      simp only [stmt, genLoop, hp]
    exact ⟨iff_of_false (by rw [he]; simp [Except.isOk, Except.toBool]) (by omega),
      fun hcon => absurd hcon (by omega),
      fun _ hcon => absurd hcon (by omega),
      fun _ => he,
      rfl, rfl⟩

/-- Witness for C2's amended theorem at `t = "7"`. -/
theorem exit_code_range_w :
    (tokens_to_asm (stmt "7")).isOk = true :=
  (exit_code_range "7" (by decide) (by decide)).1.mpr (by decide)

/-- Counterexample to claim C2 as stated: the digit string `2147483648`
denotes a value outside `[0, 255]`, yet generation fails with the
invalid-number message, not the out-of-range message the claim names. -/
theorem exit_code_range_cex :
    tokens_to_asm (stmt "2147483648") =
      Except.error "Invalid number: \x272147483648\x27" ∧
    "Invalid number: \x272147483648\x27" ≠
      "Exit code must be between 0 and 255, got 2147483648" :=
  ⟨rfl, by decide⟩

/-- Counterexample to claim C3 as stated: on `[ReturnKeyword, Semicolon]`
the generator fails with the incomplete-statement error, not the
missing-number error the claim names. -/
theorem return_semi_cex :
    tokens_to_asm [⟨TokenType.Return, none⟩, ⟨TokenType.Semi, none⟩] =
      Except.error "Incomplete return statement: expected \x27kharrej <number>;\x27" ∧
    "Incomplete return statement: expected \x27kharrej <number>;\x27" ≠
      "Expected number after \x27kharrej\x27" :=
  ⟨rfl, by decide⟩

/-- Claim C3, amended: `[ReturnKeyword, Semicolon]` fails with the
incomplete-statement error (the remaining-length check fires first);
the missing-number error needs at least two tokens after the keyword,
e.g. `[ReturnKeyword, Semicolon, Semicolon]`. -/
theorem return_semi_incomplete :
    tokens_to_asm [⟨TokenType.Return, none⟩, ⟨TokenType.Semi, none⟩] =
      Except.error "Incomplete return statement: expected \x27kharrej <number>;\x27" ∧
    tokens_to_asm
      [⟨TokenType.Return, none⟩, ⟨TokenType.Semi, none⟩, ⟨TokenType.Semi, none⟩] =
      Except.error "Expected number after \x27kharrej\x27" :=
  ⟨rfl, rfl⟩

/-- Counterexample to claim C4 as stated: in
`[Return, Semi, Semi, Return]` the final `ReturnKeyword` has fewer than
two tokens following it, yet generation fails with the missing-number
error raised at the first keyword, not the incomplete-statement error. -/
theorem incomplete_before_kind_cex :
    List.drop 3 [⟨TokenType.Return, none⟩, ⟨TokenType.Semi, none⟩, ⟨TokenType.Semi, none⟩,
        (⟨TokenType.Return, none⟩ : Token)] = [⟨TokenType.Return, none⟩] ∧
    tokens_to_asm [⟨TokenType.Return, none⟩, ⟨TokenType.Semi, none⟩, ⟨TokenType.Semi, none⟩,
        ⟨TokenType.Return, none⟩] =
      Except.error "Expected number after \x27kharrej\x27" ∧
    "Expected number after \x27kharrej\x27" ≠
      "Incomplete return statement: expected \x27kharrej <number>;\x27" :=
  ⟨rfl, rfl, by decide⟩

/-- Claim C4, amended: whenever the scan reaches a `ReturnKeyword` with
fewer than two tokens following, it fails with the incomplete-statement
error regardless of the following tokens' kinds (the remaining-length
check precedes the kind checks); in particular
`[ReturnKeyword, NumberLiteral "5"]` fails with it, not missing-semicolon. -/
theorem incomplete_before_kind :
    (∀ (v : Option String) (rest : List Token) (found : Bool) (acc : String),
        rest.length < 2 →
        genLoop (⟨TokenType.Return, v⟩ :: rest) found acc =
          Except.error "Incomplete return statement: expected \x27kharrej <number>;\x27") ∧
    tokens_to_asm [⟨TokenType.Return, none⟩, ⟨TokenType.Number, some "5"⟩] =
      Except.error "Incomplete return statement: expected \x27kharrej <number>;\x27" := by
  refine ⟨?_, rfl⟩
  intro v rest found acc hlen
  rcases rest with _ | ⟨t1, _ | ⟨t2, rest2⟩⟩
  · rfl
  · rfl
  · exact absurd hlen (by simp only [List.length_cons]; omega)

/-- Witness for C4's amended theorem on `[ReturnKeyword, Semicolon]`. -/
theorem incomplete_before_kind_w :
    genLoop [⟨TokenType.Return, none⟩, ⟨TokenType.Semi, none⟩] false "" =
      Except.error "Incomplete return statement: expected \x27kharrej <number>;\x27" :=
  incomplete_before_kind.1 none [⟨TokenType.Semi, none⟩] false "" (by decide)

/-- Claim C5: `kharrej 1; kharrej 2;` generates two independent exit
blocks in source order, and in general any non-empty run of consecutive
valid statements generates one exit block per statement, in order, with
no deduplication. -/
theorem multiple_statements :
    tokens_to_asm (tokenize "kharrej 1; kharrej 2;") =
      Except.ok (asmHeader ++ (exitBlock 1 ++ exitBlock 2)) ∧
    ∀ (vs : List String), vs ≠ [] →
      (∀ t ∈ vs, t.data ≠ [] ∧ t.data.all Char.isDigit = true ∧ decimalVal t ≤ 255) →
      tokens_to_asm (vs.map stmt).flatten =
        Except.ok (asmHeader ++ blocks (vs.map fun t => ((decimalVal t : Int)))) := by
  constructor
  · have htok : tokenize "kharrej 1; kharrej 2;" = stmt "1" ++ stmt "2" := by
      simp +decide [tokenize, tokenize_chars, stmt, isAsciiLetter]
    rw [htok]
    rfl
  · intro vs hne hall
    rcases vs with _ | ⟨v, vs⟩
    · exact absurd rfl hne
    obtain ⟨h1, h2, h3⟩ := hall v (List.mem_cons_self _ _)
    have hrest := fun t ht => hall t (List.mem_cons_of_mem _ ht)
    rw [List.map_cons, List.flatten_cons]
    show genLoop (stmt v ++ (vs.map stmt).flatten) false asmHeader = _
    rw [genLoop_stmt v _ false asmHeader h1 h2 h3, genLoop_stmts vs hrest,
      List.map_cons, blocks, String.append_assoc]

/-- Witness for C5's general conjunct at `vs = ["4"]`. -/
theorem multiple_statements_w :
    tokens_to_asm (List.map stmt ["4"]).flatten =
      Except.ok (asmHeader ++ blocks (List.map (fun t => ((decimalVal t : Int))) ["4"])) :=
  multiple_statements.2 ["4"] (by decide) (by decide)

/-- Claim C6: every successful output of the code generator is the fixed
three-line header followed only by exit blocks. -/
theorem header_invariant (tokens : List Token) (s : String)
    (h : tokens_to_asm tokens = Except.ok s) :
    ∃ ws : List Int, s = asmHeader ++ blocks ws :=
  genLoop_ok_shape tokens false asmHeader s h

/-- Witness for C6 on the output for `kharrej 7;`. -/
theorem header_invariant_w :
    ∃ ws : List Int, asmHeader ++ exitBlock 7 = asmHeader ++ blocks ws :=
  header_invariant (stmt "7") (asmHeader ++ exitBlock 7) rfl

/-- Claim C7: generation fails with the no-statement-found error exactly
when the token sequence contains no `ReturnKeyword`; in particular it does
so on the empty sequence. -/
theorem no_statement_found_iff (tokens : List Token) :
    (tokens_to_asm tokens = Except.error "No \x27kharrej\x27 statement found" ↔
      ∀ tk ∈ tokens, tk.token_type ≠ TokenType.Return) ∧
    tokens_to_asm [] = Except.error "No \x27kharrej\x27 statement found" := by
  refine ⟨?_, rfl⟩
  have h := genLoop_noStmt_iff tokens false asmHeader
  simpa [tokens_to_asm] using h

/-- Claim C8: the lexer is total — it is a function into token lists whose
output length is bounded by the input length, and unrecognized characters
simply produce no token for their span. -/
theorem tokenize_total (s : String) :
    (tokenize s).length ≤ s.data.length ∧
    ∀ (c : Char) (rest : List Char),
      isAsciiLetter c = false → c.isDigit = false → ¬ c = ';' →
      tokenize_chars (c :: rest) = tokenize_chars rest := by
  constructor
  · exact tokenize_chars_length s.data
  · intro c rest hc hdig hsemi
    simp only [tokenize_chars]
    rw [if_neg (by simp [hc]), if_neg (by simp [hdig]), if_neg hsemi]
    by_cases hws : (decide (c = ' ') || decide (c = '\t') || decide (c = '\n') ||
        decide (c = '\r')) = true
    · rw [if_pos hws]
    · rw [if_neg hws]

/-- Witness for C8's discard conjunct at `c = '!'`. -/
theorem tokenize_total_w :
    tokenize_chars ['!'] = tokenize_chars [] :=
  (tokenize_total "").2 '!' [] (by decide) (by decide) (by decide)

/-- Claim C9: a `NumberLiteral` with an absent value between a keyword
and a semicolon is silently skipped — the generator succeeds, the keyword
counts as found, and no exit block is emitted. -/
theorem absent_value_skipped :
    tokens_to_asm
      [⟨TokenType.Return, none⟩, ⟨TokenType.Number, none⟩, ⟨TokenType.Semi, none⟩] =
      Except.ok asmHeader := rfl

/-- Claim C10: identifier runs start only at ASCII letters but greedily
consume any Unicode alphabetic characters, so `kharrej` followed
immediately by a non-ASCII letter (Latin-1 or beyond, e.g. U+00E9 or
U+03B1) is one discarded identifier and yields no `ReturnKeyword`; a run
starting at a non-ASCII letter is discarded one character at a time
without forming an identifier. -/
theorem identifier_runs :
    tokenize "kharrejé 7;" = [⟨TokenType.Number, some "7"⟩, ⟨TokenType.Semi, none⟩] ∧
    tokenize "kharrejα" = [] ∧
    (∀ (c : Char) (rest : List Char), is_alphabetic c = true →
      tokenize_chars ("kharrej".data ++ c :: rest) =
        tokenize_chars (List.dropWhile is_alphabetic rest)) ∧
    (∀ (c : Char) (rest : List Char),
      isAsciiLetter c = false → c.isDigit = false → ¬ c = ';' →
      tokenize_chars (c :: rest) = tokenize_chars rest) ∧
    tokenize "ααkharrej;" = [⟨TokenType.Return, none⟩, ⟨TokenType.Semi, none⟩] := by
  refine ⟨?_, ?_, ?_, ?_, ?_⟩
  · simp +decide [tokenize, tokenize_chars, isAsciiLetter]
  · simp +decide [tokenize, tokenize_chars, isAsciiLetter]
  · intro c rest h
    have hdata : "kharrej".data = ['k', 'h', 'a', 'r', 'r', 'e', 'j'] := rfl
    rw [hdata]
    simp only [List.cons_append, List.nil_append]
    simp only [tokenize_chars]
    rw [if_pos (by decide : isAsciiLetter 'k' = true)]
    simp +decide only [List.takeWhile_cons, List.dropWhile_cons, h, if_true]
    rw [if_neg ?hne]
    case hne =>
      intro heq
      have hlen := congrArg (fun s => s.data.length) heq
      simp only [List.length_cons, List.length_nil] at hlen
      omega
  · intro c rest hc hdig hsemi
    simp only [tokenize_chars]
    rw [if_neg (by simp [hc]), if_neg (by simp [hdig]), if_neg hsemi]
    by_cases hws : (decide (c = ' ') || decide (c = '\t') || decide (c = '\n') ||
        decide (c = '\r')) = true
    · rw [if_pos hws]
    · rw [if_neg hws]
  · simp +decide [tokenize, tokenize_chars, isAsciiLetter]

/-- Witness for C10's universally quantified conjuncts at `c = 'α'`
(alphabetic beyond Latin-1), `c = 'é'` (Latin-1 alphabetic), and
`c = '!'` (no identifier formed). -/
theorem identifier_runs_w :
    tokenize_chars ("kharrej".data ++ 'α' :: []) =
      tokenize_chars (List.dropWhile is_alphabetic []) ∧
    tokenize_chars ("kharrej".data ++ 'é' :: []) =
      tokenize_chars (List.dropWhile is_alphabetic []) ∧
    tokenize_chars ['!'] = tokenize_chars [] :=
  ⟨identifier_runs.2.2.1 'α' [] (by decide),
   identifier_runs.2.2.1 'é' [] (by decide),
   identifier_runs.2.2.2.1 '!' [] (by decide) (by decide) (by decide)⟩

end Ria
